import Mathlib

/-!
Verification of the HDInsight custom-poller component of the
terraform-provider-azurerm repository.

The component has two layers:
* two concrete Poll Operations, `DisableAzureMonitorPoller.Poll` and
  `DisableMonitoringPoller.Poll` (package `custompollers`), embedded here
  directly from their Go sources; and
* the generic Poller Driver (`pollers.Poller.PollUntilDone` of
  go-azure-sdk), whose sources are not part of this repository; it is
  modelled from the specification where a claim needs it.

Go pointers that may be `nil` become `Option`, Go `error` returns become
`Except String`, `time.Duration` becomes a count of nanoseconds.
-/

namespace HDInsight

/-- Go `time.Duration` counted in nanoseconds. -/
abbrev Duration := Nat

/-- Go `time.Second`. -/
def timeSecond : Duration := 1000000000

/-- Polling statuses of the go-azure-sdk `pollers` package. -/
inductive PollingStatus where
  | Cancelled
  | Failed
  | InProgress
  | Succeeded
  | Unknown
deriving DecidableEq, Repr

/-- Opaque token standing for a raw `*http.Response`; the pollers only pass
it through unchanged. -/
abbrev RawHttpResponse := Nat

/-- Opaque token standing for the decoded OData payload; the pollers only
pass it through unchanged. -/
abbrev ODataPayload := Nat

/-- `client.Response` of go-azure-sdk: the envelope stored in a
`PollResult`. -/
structure ClientResponse where
  OData : Option ODataPayload
  Response : Option RawHttpResponse
deriving DecidableEq, Repr

/-- `pollers.PollResult` of go-azure-sdk. -/
structure PollResult where
  HttpResponse : Option ClientResponse
  PollInterval : Duration
  Status : PollingStatus
deriving DecidableEq, Repr

/-- `extensions.ClusterId`, used only through its string formatting. -/
abbrev ClusterId := String

/-- `extensions.ClusterMonitoringResponse`: the decoded body of a
`GetMonitoringStatus` call. -/
structure ClusterMonitoringResponse where
  ClusterMonitoringEnabled : Option Bool
  WorkspaceId : Option String
deriving DecidableEq, Repr

/-- `extensions.GetMonitoringStatusOperationResponse`. -/
structure GetMonitoringStatusOperationResponse where
  HttpResponse : Option RawHttpResponse
  OData : Option ODataPayload
  Model : Option ClusterMonitoringResponse
deriving DecidableEq, Repr

/-- `extensions.ExtensionsClient`, reduced to the one operation the two
pollers invoke: a single-shot status query that either fails with an error
message or yields a decoded response. -/
structure ExtensionsClient where
  GetMonitoringStatus : ClusterId → Except String GetMonitoringStatusOperationResponse

/-- `custompollers.DisableAzureMonitorPoller`. -/
structure DisableAzureMonitorPoller where
  client : ExtensionsClient
  clusterId : ClusterId

/-- `custompollers.NewDisableAzureMonitorPoller`. -/
def NewDisableAzureMonitorPoller (client : ExtensionsClient) (clusterId : ClusterId) :
    DisableAzureMonitorPoller :=
  { client := client, clusterId := clusterId }

/-- `DisableAzureMonitorPoller.Poll` (src/unnamed/part_000, lines 30-55). -/
def DisableAzureMonitorPoller.Poll (p : DisableAzureMonitorPoller) :
    Except String PollResult :=
  match p.client.GetMonitoringStatus p.clusterId with
  | .error err =>
      .error ("retrieving Azure Monitor Status for " ++ p.clusterId ++ ": " ++ err)
  | .ok resp =>
      match resp.Model with
      | none =>
          .error ("retrieving Azure Monitor Status for " ++ p.clusterId ++ ": `model` was nil")
      | some model =>
          match model.ClusterMonitoringEnabled with
          | none =>
              .error ("retrieving Azure Monitor Status for " ++ p.clusterId ++
                ": `model.ClusterMonitoringEnabled` was nil")
          | some enabled =>
              let status := if !enabled then PollingStatus.Succeeded else PollingStatus.InProgress
              .ok { HttpResponse := some { OData := resp.OData, Response := resp.HttpResponse }
                    PollInterval := 10 * timeSecond
                    Status := status }

/-- `custompollers.DisableMonitoringPoller`. -/
structure DisableMonitoringPoller where
  client : ExtensionsClient
  clusterId : ClusterId

/-- `custompollers.NewDisableMonitoringPoller`. -/
def NewDisableMonitoringPoller (client : ExtensionsClient) (clusterId : ClusterId) :
    DisableMonitoringPoller :=
  { client := client, clusterId := clusterId }

/-- `DisableMonitoringPoller.Poll` (src/unnamed/part_001, lines 30-55). -/
def DisableMonitoringPoller.Poll (p : DisableMonitoringPoller) :
    Except String PollResult :=
  match p.client.GetMonitoringStatus p.clusterId with
  | .error err =>
      .error ("retrieving Monitoring Status for " ++ p.clusterId ++ ": " ++ err)
  | .ok resp =>
      match resp.Model with
      | none =>
          .error ("retrieving Monitoring Status for " ++ p.clusterId ++ ": `model` was nil")
      | some model =>
          match model.ClusterMonitoringEnabled with
          | none =>
              .error ("retrieving Monitoring Status for " ++ p.clusterId ++
                ": `model.ClusterMonitoringEnabled` was nil")
          | some enabled =>
              let status := if !enabled then PollingStatus.Succeeded else PollingStatus.InProgress
              .ok { HttpResponse := some { OData := resp.OData, Response := resp.HttpResponse }
                    PollInterval := 10 * timeSecond
                    Status := status }

/-- State-passing form of the Go method `(p *DisableAzureMonitorPoller) Poll`:
the receiver is a pointer, so the method could in principle assign to the
struct fields; its body contains no assignment to `p.client` or
`p.clusterId`, which the translation records by returning the receiver
unchanged as the output state. -/
def DisableAzureMonitorPoller.PollSt (p : DisableAzureMonitorPoller) :
    Except String PollResult × DisableAzureMonitorPoller :=
  (p.Poll, p)

/-- State-passing form of the Go method `(p *DisableMonitoringPoller) Poll`;
as with `DisableAzureMonitorPoller.PollSt`, the body assigns to no receiver
field. -/
def DisableMonitoringPoller.PollSt (p : DisableMonitoringPoller) :
    Except String PollResult × DisableMonitoringPoller :=
  (p.Poll, p)

/-- Modelled from the spec: the outcome of one Poll Operation invocation as
the Poller Driver sees it.  The driver itself (`pollers.Poller.PollUntilDone`
of go-azure-sdk) is not part of this repository's sources; the spec
distinguishes a transport/query failure (retried up to an allowance) from a
malformed response (fatal immediately). -/
inductive PollOutcome where
  | polled (status : PollingStatus) (interval : Duration)
  | queryFailure (msg : String)
  | malformedResponse (msg : String)
deriving DecidableEq, Repr

/-- Modelled from the spec: the error taxonomy the Poller Driver surfaces
(spec section 7). -/
inductive DriverError where
  | TimeoutExceededError (lastErr : String)
  | MalformedResponseError (msg : String)
  | CancellationError
  | PollingFailedError
deriving DecidableEq, Repr

/-- Cancellation observed at poll index `idx`: the caller-supplied context
was cancelled during the wait before the poll numbered `c` would be
issued. -/
def cancelObserved (cancelAt : Option Nat) (idx : Nat) : Bool :=
  match cancelAt with
  | none => false
  | some c => decide (c ≤ idx)

/-- Modelled from the spec: the Poller Driver loop (spec section 4.2).
`responses i` is the outcome of the poll numbered `i` (starting at 0);
`allowance` is the tolerated number of consecutive transport failures;
`failures` the running count of consecutive failures; `fuel` bounds the
recursion.  Returns `some (outcome, n)` where `outcome` is `none` on
success and `n` is the number of polls issued, or `none` if fuel ran
out.  A successful poll resets the failure counter to zero; a transport
failure beyond the allowance ends the loop with `TimeoutExceededError`
wrapping the last transport error; a malformed response is fatal at once;
cancellation is checked immediately before each poll. -/
def pollLoop (responses : Nat → PollOutcome) (allowance : Nat) (cancelAt : Option Nat) :
    Nat → Nat → Nat → Option (Option DriverError × Nat)
  | _, _, 0 => none
  | idx, failures, fuel + 1 =>
    if cancelObserved cancelAt idx then
      some (some .CancellationError, idx)
    else
      match responses idx with
      | .polled .Succeeded _ => some (none, idx + 1)
      | .polled .InProgress _ => pollLoop responses allowance cancelAt (idx + 1) 0 fuel
      | .polled _ _ => some (some .PollingFailedError, idx + 1)
      | .queryFailure msg =>
          if allowance < failures + 1 then
            some (some (.TimeoutExceededError msg), idx + 1)
          else
            pollLoop responses allowance cancelAt (idx + 1) (failures + 1) fuel
      | .malformedResponse msg => some (some (.MalformedResponseError msg), idx + 1)

/-- Modelled from the spec: `PollUntilDone`, the entry point of the Poller
Driver, starting the loop at poll index 0 with a zero failure counter. -/
def PollUntilDone (responses : Nat → PollOutcome) (allowance : Nat) (cancelAt : Option Nat)
    (fuel : Nat) : Option (Option DriverError × Nat) :=
  pollLoop responses allowance cancelAt 0 0 fuel

/-! ### Helper characterizations of the two Poll bodies -/

theorem azureMonitorPoll_ok (c : ExtensionsClient) (id : ClusterId)
    (resp : GetMonitoringStatusOperationResponse) (model : ClusterMonitoringResponse) (b : Bool)
    (hq : c.GetMonitoringStatus id = .ok resp)
    (hm : resp.Model = some model)
    (hb : model.ClusterMonitoringEnabled = some b) :
    (NewDisableAzureMonitorPoller c id).Poll =
      .ok { HttpResponse := some { OData := resp.OData, Response := resp.HttpResponse }
            PollInterval := 10 * timeSecond
            Status := if !b then .Succeeded else .InProgress } := by
  unfold NewDisableAzureMonitorPoller DisableAzureMonitorPoller.Poll
  simp only [hq, hm, hb]

theorem monitoringPoll_ok (c : ExtensionsClient) (id : ClusterId)
    (resp : GetMonitoringStatusOperationResponse) (model : ClusterMonitoringResponse) (b : Bool)
    (hq : c.GetMonitoringStatus id = .ok resp)
    (hm : resp.Model = some model)
    (hb : model.ClusterMonitoringEnabled = some b) :
    (NewDisableMonitoringPoller c id).Poll =
      .ok { HttpResponse := some { OData := resp.OData, Response := resp.HttpResponse }
            PollInterval := 10 * timeSecond
            Status := if !b then .Succeeded else .InProgress } := by
  unfold NewDisableMonitoringPoller DisableMonitoringPoller.Poll
  simp only [hq, hm, hb]

/-! ### Sample data used by the witnesses -/

def sampleModelDisabled : ClusterMonitoringResponse :=
  { ClusterMonitoringEnabled := some false, WorkspaceId := none }

def sampleRespDisabled : GetMonitoringStatusOperationResponse :=
  { HttpResponse := some 0, OData := none, Model := some sampleModelDisabled }

def sampleClientDisabled : ExtensionsClient :=
  { GetMonitoringStatus := fun _ => .ok sampleRespDisabled }

def sampleRespNilModel : GetMonitoringStatusOperationResponse :=
  { HttpResponse := some 0, OData := none, Model := none }

def sampleClientNilModel : ExtensionsClient :=
  { GetMonitoringStatus := fun _ => .ok sampleRespNilModel }

def sampleClientErr : ExtensionsClient :=
  { GetMonitoringStatus := fun _ => .error "boom" }

def sampleOkResult : PollResult :=
  { HttpResponse := some { OData := none, Response := some 0 }
    PollInterval := 10 * timeSecond
    Status := .Succeeded }

/-! ### Claims -/

/-- C1: for every response whose body and target field are present, both
disable pollers return a `PollResult` whose status is `Succeeded` exactly
when `ClusterMonitoringEnabled` is `false` (the target condition of a
disable operation) and `InProgress` exactly when it is `true`; no other
status occurs for such responses. -/
theorem poll_status_tracks_flag (c : ExtensionsClient) (id : ClusterId)
    (resp : GetMonitoringStatusOperationResponse) (model : ClusterMonitoringResponse) (b : Bool)
    (hq : c.GetMonitoringStatus id = .ok resp)
    (hm : resp.Model = some model)
    (hb : model.ClusterMonitoringEnabled = some b) :
    (∃ r, (NewDisableAzureMonitorPoller c id).Poll = .ok r ∧
      (r.Status = .Succeeded ↔ b = false) ∧ (r.Status = .InProgress ↔ b = true)) ∧
    (∃ r, (NewDisableMonitoringPoller c id).Poll = .ok r ∧
      (r.Status = .Succeeded ↔ b = false) ∧ (r.Status = .InProgress ↔ b = true)) := by
  refine ⟨⟨_, azureMonitorPoll_ok c id resp model b hq hm hb, ?_, ?_⟩,
          ⟨_, monitoringPoll_ok c id resp model b hq hm hb, ?_, ?_⟩⟩ <;>
    cases b <;> simp

/-- Witness for C1 at a concrete client whose status query reports the flag
already `false`. -/
theorem poll_status_tracks_flag_witness :
    (∃ r, (NewDisableAzureMonitorPoller sampleClientDisabled "cid").Poll = .ok r ∧
      (r.Status = .Succeeded ↔ false = false) ∧ (r.Status = .InProgress ↔ false = true)) ∧
    (∃ r, (NewDisableMonitoringPoller sampleClientDisabled "cid").Poll = .ok r ∧
      (r.Status = .Succeeded ↔ false = false) ∧ (r.Status = .InProgress ↔ false = true)) :=
  poll_status_tracks_flag sampleClientDisabled "cid" sampleRespDisabled sampleModelDisabled
    false rfl rfl rfl

/-- C2: when the decoded body (`Model`) is `nil` or the target field
(`ClusterMonitoringEnabled`) is `nil`, both disable pollers return a
non-nil error and no `PollResult` (the `Except.error` branch excludes any
result, in particular `InProgress`); and, in the spec-modelled driver, a
malformed response on the first poll makes `PollUntilDone` fail with a
`MalformedResponseError` after exactly one poll, without retrying. -/
theorem poll_nil_model_or_flag_is_error (c : ExtensionsClient) (id : ClusterId)
    (resp : GetMonitoringStatusOperationResponse)
    (hq : c.GetMonitoringStatus id = .ok resp)
    (hbad : resp.Model = none ∨
      ∃ model, resp.Model = some model ∧ model.ClusterMonitoringEnabled = none) :
    ((∃ msg, (NewDisableAzureMonitorPoller c id).Poll = .error msg) ∧
     (∃ msg, (NewDisableMonitoringPoller c id).Poll = .error msg) ∧
     (∀ r, (NewDisableAzureMonitorPoller c id).Poll ≠ .ok r) ∧
     (∀ r, (NewDisableMonitoringPoller c id).Poll ≠ .ok r)) ∧
    (∀ (responses : Nat → PollOutcome) (allowance fuel : Nat) (msg : String),
      responses 0 = .malformedResponse msg → 0 < fuel →
      PollUntilDone responses allowance none fuel =
        some (some (.MalformedResponseError msg), 1)) := by
  constructor
  · have hA : ∃ msg, (NewDisableAzureMonitorPoller c id).Poll = .error msg := by
      unfold NewDisableAzureMonitorPoller DisableAzureMonitorPoller.Poll
      rcases hbad with hnone | ⟨model, hm, hflag⟩
      · exact ⟨_, by simp only [hq, hnone]; rfl⟩
      · exact ⟨_, by simp only [hq, hm, hflag]; rfl⟩
    have hM : ∃ msg, (NewDisableMonitoringPoller c id).Poll = .error msg := by
      unfold NewDisableMonitoringPoller DisableMonitoringPoller.Poll
      rcases hbad with hnone | ⟨model, hm, hflag⟩
      · exact ⟨_, by simp only [hq, hnone]; rfl⟩
      · exact ⟨_, by simp only [hq, hm, hflag]; rfl⟩
    refine ⟨hA, hM, ?_, ?_⟩
    · obtain ⟨msg, hmsg⟩ := hA
      intro r hr
      rw [hmsg] at hr
      exact Except.noConfusion hr
    · obtain ⟨msg, hmsg⟩ := hM
      intro r hr
      rw [hmsg] at hr
      exact Except.noConfusion hr
  · intro responses allowance fuel msg h0 hfuel
    cases fuel with
    | zero => exact absurd hfuel (by simp)
    | succ n =>
        unfold PollUntilDone pollLoop
        simp [cancelObserved, h0]

/-- Witness for C2 at a concrete client whose status query returns a body
with `Model` absent. -/
theorem poll_nil_model_or_flag_is_error_witness :
    ((∃ msg, (NewDisableAzureMonitorPoller sampleClientNilModel "cid").Poll = .error msg) ∧
     (∃ msg, (NewDisableMonitoringPoller sampleClientNilModel "cid").Poll = .error msg) ∧
     (∀ r, (NewDisableAzureMonitorPoller sampleClientNilModel "cid").Poll ≠ .ok r) ∧
     (∀ r, (NewDisableMonitoringPoller sampleClientNilModel "cid").Poll ≠ .ok r)) ∧
    (∀ (responses : Nat → PollOutcome) (allowance fuel : Nat) (msg : String),
      responses 0 = .malformedResponse msg → 0 < fuel →
      PollUntilDone responses allowance none fuel =
        some (some (.MalformedResponseError msg), 1)) :=
  poll_nil_model_or_flag_is_error sampleClientNilModel "cid" sampleRespNilModel rfl
    (Or.inl rfl)

/-- C4: when the underlying status query fails, both disable pollers return
a non-nil error wrapping the query error and a nil `PollResult`; the
failure is never mapped to a `PollResult` with status `Failed`. -/
theorem poll_query_error_propagates (c : ExtensionsClient) (id : ClusterId) (e : String)
    (hq : c.GetMonitoringStatus id = .error e) :
    (NewDisableAzureMonitorPoller c id).Poll =
      .error ("retrieving Azure Monitor Status for " ++ id ++ ": " ++ e) ∧
    (NewDisableMonitoringPoller c id).Poll =
      .error ("retrieving Monitoring Status for " ++ id ++ ": " ++ e) ∧
    (∀ r, (NewDisableAzureMonitorPoller c id).Poll ≠ .ok r) ∧
    (∀ r, (NewDisableMonitoringPoller c id).Poll ≠ .ok r) := by
  have hA : (NewDisableAzureMonitorPoller c id).Poll =
      .error ("retrieving Azure Monitor Status for " ++ id ++ ": " ++ e) := by
    unfold NewDisableAzureMonitorPoller DisableAzureMonitorPoller.Poll
    simp only [hq]
  have hM : (NewDisableMonitoringPoller c id).Poll =
      .error ("retrieving Monitoring Status for " ++ id ++ ": " ++ e) := by
    unfold NewDisableMonitoringPoller DisableMonitoringPoller.Poll
    simp only [hq]
  refine ⟨hA, hM, ?_, ?_⟩
  · intro r hr
    rw [hA] at hr
    exact Except.noConfusion hr
  · intro r hr
    rw [hM] at hr
    exact Except.noConfusion hr

/-- Witness for C4 at a concrete client whose status query fails. -/
theorem poll_query_error_propagates_witness :
    (NewDisableAzureMonitorPoller sampleClientErr "cid").Poll =
      .error ("retrieving Azure Monitor Status for " ++ "cid" ++ ": " ++ "boom") ∧
    (NewDisableMonitoringPoller sampleClientErr "cid").Poll =
      .error ("retrieving Monitoring Status for " ++ "cid" ++ ": " ++ "boom") ∧
    (∀ r, (NewDisableAzureMonitorPoller sampleClientErr "cid").Poll ≠ .ok r) ∧
    (∀ r, (NewDisableMonitoringPoller sampleClientErr "cid").Poll ≠ .ok r) :=
  poll_query_error_propagates sampleClientErr "cid" "boom" rfl

/-- C5: every `PollResult` either disable poller returns carries a
`PollInterval` of exactly 10 seconds (`10 * time.Second`), regardless of
the response contents. -/
theorem poll_interval_constant_ten_seconds
    (pA : DisableAzureMonitorPoller) (pM : DisableMonitoringPoller) (rA rM : PollResult)
    (hA : pA.Poll = .ok rA) (hM : pM.Poll = .ok rM) :
    rA.PollInterval = 10 * timeSecond ∧ rM.PollInterval = 10 * timeSecond := by
  constructor
  · unfold DisableAzureMonitorPoller.Poll at hA
    split at hA
    · exact Except.noConfusion hA
    · split at hA
      · exact Except.noConfusion hA
      · split at hA
        · exact Except.noConfusion hA
        · cases hA
          rfl
  · unfold DisableMonitoringPoller.Poll at hM
    split at hM
    · exact Except.noConfusion hM
    · split at hM
      · exact Except.noConfusion hM
      · split at hM
        · exact Except.noConfusion hM
        · cases hM
          rfl

/-- Witness for C5 at a concrete client whose status query reports the flag
already `false`. -/
theorem poll_interval_constant_ten_seconds_witness :
    sampleOkResult.PollInterval = 10 * timeSecond ∧
    sampleOkResult.PollInterval = 10 * timeSecond :=
  poll_interval_constant_ten_seconds
    (NewDisableAzureMonitorPoller sampleClientDisabled "cid")
    (NewDisableMonitoringPoller sampleClientDisabled "cid")
    sampleOkResult sampleOkResult rfl rfl

/-- C10: neither disable poller ever returns a `PollResult` with status
`Failed`: whenever `Poll` succeeds, the status is exactly `InProgress` or
`Succeeded`, even though `PollingStatus` admits a `Failed` value (the error
cases return `Except.error`, hence no result at all). -/
theorem poll_never_failed
    (pA : DisableAzureMonitorPoller) (pM : DisableMonitoringPoller) (rA rM : PollResult)
    (hA : pA.Poll = .ok rA) (hM : pM.Poll = .ok rM) :
    (rA.Status = .InProgress ∨ rA.Status = .Succeeded) ∧ rA.Status ≠ .Failed ∧
    (rM.Status = .InProgress ∨ rM.Status = .Succeeded) ∧ rM.Status ≠ .Failed := by
  have hstA : rA.Status = .InProgress ∨ rA.Status = .Succeeded := by
    unfold DisableAzureMonitorPoller.Poll at hA
    split at hA
    · exact Except.noConfusion hA
    · split at hA
      · exact Except.noConfusion hA
      · split at hA
        · exact Except.noConfusion hA
        · cases hA
          rename_i enabled _
          cases enabled <;> simp
  have hstM : rM.Status = .InProgress ∨ rM.Status = .Succeeded := by
    unfold DisableMonitoringPoller.Poll at hM
    split at hM
    · exact Except.noConfusion hM
    · split at hM
      · exact Except.noConfusion hM
      · split at hM
        · exact Except.noConfusion hM
        · cases hM
          rename_i enabled _
          cases enabled <;> simp
  refine ⟨hstA, ?_, hstM, ?_⟩
  · rcases hstA with h | h <;> rw [h] <;> simp
  · rcases hstM with h | h <;> rw [h] <;> simp

/-- Witness for C10 at a concrete client whose status query reports the
flag already `false`. -/
theorem poll_never_failed_witness :
    (sampleOkResult.Status = .InProgress ∨ sampleOkResult.Status = .Succeeded) ∧
    sampleOkResult.Status ≠ .Failed ∧
    (sampleOkResult.Status = .InProgress ∨ sampleOkResult.Status = .Succeeded) ∧
    sampleOkResult.Status ≠ .Failed :=
  poll_never_failed
    (NewDisableAzureMonitorPoller sampleClientDisabled "cid")
    (NewDisableMonitoringPoller sampleClientDisabled "cid")
    sampleOkResult sampleOkResult rfl rfl

/-- A second concrete client, distinct as a term from `sampleClientDisabled`
but returning the same response, standing for the same remote state observed
at a later call. -/
def sampleClientDisabledLater : ExtensionsClient :=
  { GetMonitoringStatus := fun cid =>
      if cid = cid then .ok sampleRespDisabled else .ok sampleRespNilModel }

/-- C8: the two poller variants are extensionally equal up to error-message
text: bound to the same client and cluster they query the same endpoint
(`GetMonitoringStatus`), inspect the same field, share the done-polarity
(done when the flag is `false`), and return identical results (status and
`PollInterval` included) on success, erring exactly together. -/
theorem pollers_extensionally_equal (c : ExtensionsClient) (id : ClusterId) :
    ((NewDisableAzureMonitorPoller c id).Poll).toOption =
      ((NewDisableMonitoringPoller c id).Poll).toOption ∧
    (∀ r, (NewDisableAzureMonitorPoller c id).Poll = .ok r ↔
      (NewDisableMonitoringPoller c id).Poll = .ok r) ∧
    ((∃ e, (NewDisableAzureMonitorPoller c id).Poll = .error e) ↔
      (∃ e, (NewDisableMonitoringPoller c id).Poll = .error e)) := by
  unfold NewDisableAzureMonitorPoller NewDisableMonitoringPoller
    DisableAzureMonitorPoller.Poll DisableMonitoringPoller.Poll
  cases hq : c.GetMonitoringStatus id with
  | error e => simp [Except.toOption]
  | ok resp =>
      cases hm : resp.Model with
      | none => simp [hm, Except.toOption]
      | some model =>
          cases hb : model.ClusterMonitoringEnabled with
          | none => simp [hm, hb, Except.toOption]
          | some enabled => simp [hm, hb, Except.toOption]

/-- Witness for C8 at a concrete client and cluster id. -/
theorem pollers_extensionally_equal_witness :
    ((NewDisableAzureMonitorPoller sampleClientDisabled "cid").Poll).toOption =
      ((NewDisableMonitoringPoller sampleClientDisabled "cid").Poll).toOption ∧
    (∀ r, (NewDisableAzureMonitorPoller sampleClientDisabled "cid").Poll = .ok r ↔
      (NewDisableMonitoringPoller sampleClientDisabled "cid").Poll = .ok r) ∧
    ((∃ e, (NewDisableAzureMonitorPoller sampleClientDisabled "cid").Poll = .error e) ↔
      (∃ e, (NewDisableMonitoringPoller sampleClientDisabled "cid").Poll = .error e)) :=
  pollers_extensionally_equal sampleClientDisabled "cid"

/-- C9: `Poll` is idempotent and side-effect free.  Two invocations against
remotes whose status responses agree (the resource state is unchanged
between the calls) produce identical outcomes, hence the same status; and
the state-passing form of the method leaves the receiver's `client` and
`clusterId` fields unchanged after every call. -/
theorem poll_idempotent_no_mutation (c1 c2 : ExtensionsClient) (id : ClusterId)
    (hsame : c1.GetMonitoringStatus id = c2.GetMonitoringStatus id) :
    (NewDisableAzureMonitorPoller c1 id).Poll = (NewDisableAzureMonitorPoller c2 id).Poll ∧
    (NewDisableMonitoringPoller c1 id).Poll = (NewDisableMonitoringPoller c2 id).Poll ∧
    (∀ p : DisableAzureMonitorPoller,
      (p.PollSt).2.client = p.client ∧ (p.PollSt).2.clusterId = p.clusterId) ∧
    (∀ p : DisableMonitoringPoller,
      (p.PollSt).2.client = p.client ∧ (p.PollSt).2.clusterId = p.clusterId) := by
  refine ⟨?_, ?_, fun p => ⟨rfl, rfl⟩, fun p => ⟨rfl, rfl⟩⟩
  · unfold NewDisableAzureMonitorPoller DisableAzureMonitorPoller.Poll
    simp only [hsame]
  · unfold NewDisableMonitoringPoller DisableMonitoringPoller.Poll
    simp only [hsame]

/-- Witness for C9: two syntactically different clients observing the same
remote state. -/
theorem poll_idempotent_no_mutation_witness :
    (NewDisableAzureMonitorPoller sampleClientDisabled "cid").Poll =
      (NewDisableAzureMonitorPoller sampleClientDisabledLater "cid").Poll ∧
    (NewDisableMonitoringPoller sampleClientDisabled "cid").Poll =
      (NewDisableMonitoringPoller sampleClientDisabledLater "cid").Poll ∧
    (∀ p : DisableAzureMonitorPoller,
      (p.PollSt).2.client = p.client ∧ (p.PollSt).2.clusterId = p.clusterId) ∧
    (∀ p : DisableMonitoringPoller,
      (p.PollSt).2.client = p.client ∧ (p.PollSt).2.clusterId = p.clusterId) :=
  poll_idempotent_no_mutation sampleClientDisabled sampleClientDisabledLater "cid" (by simp [sampleClientDisabled, sampleClientDisabledLater])

/-! ### Driver runs used by the driver claims -/

/-- Two `InProgress` responses followed by `Succeeded` ones. -/
def threeStepResponses : Nat → PollOutcome := fun i =>
  if i < 2 then .polled .InProgress (10 * timeSecond) else .polled .Succeeded (10 * timeSecond)

/-- Three consecutive transport failures. -/
def threeFailuresResponses : Nat → PollOutcome
  | 0 => .queryFailure "transport failure 0"
  | 1 => .queryFailure "transport failure 1"
  | _ => .queryFailure "transport failure 2"

/-- Two transport failures, a successful poll, two more failures, then
success: exercises the reset of the consecutive-failure counter. -/
def failureRecoveryResponses : Nat → PollOutcome
  | 0 => .queryFailure "transport failure 0"
  | 1 => .queryFailure "transport failure 1"
  | 2 => .polled .InProgress (10 * timeSecond)
  | 3 => .queryFailure "transport failure 3"
  | 4 => .queryFailure "transport failure 4"
  | _ => .polled .Succeeded (10 * timeSecond)

theorem pollLoop_inProgress_run (responses : Nat → PollOutcome) (allowance : Nat) :
    ∀ (k idx f fuel : Nat), k < fuel →
    (∀ i, idx ≤ i → i < idx + k → ∃ d, responses i = .polled .InProgress d) →
    (∃ d, responses (idx + k) = .polled .Succeeded d) →
    pollLoop responses allowance none idx f fuel = some (none, idx + k + 1) := by
  intro k
  induction k with
  | zero =>
      intro idx f fuel hfuel _ hS
      obtain ⟨d, hd⟩ := hS
      rw [Nat.add_zero] at hd
      cases fuel with
      | zero => omega
      | succ m =>
          unfold pollLoop
          simp [cancelObserved, hd]
  | succ k ih =>
      intro idx f fuel hfuel hIn hS
      cases fuel with
      | zero => omega
      | succ m =>
          obtain ⟨d, hd⟩ := hIn idx (Nat.le_refl idx) (by omega)
          unfold pollLoop
          simp only [cancelObserved, if_false, Bool.false_eq_true, ite_false, hd]
          have harith : idx + (k + 1) + 1 = (idx + 1) + k + 1 := by omega
          rw [harith]
          exact ih (idx + 1) 0 m (by omega)
            (fun i h1 h2 => hIn i (by omega) (by omega))
            (by rw [show idx + 1 + k = idx + (k + 1) from by omega]; exact hS)

/-- C3: for every sequence of `N - 1` responses classified `InProgress`
followed by one classified `Succeeded`, the spec-modelled `PollUntilDone`
returns success (no error) after invoking the Poll Operation exactly `N`
times, for any fuel of at least `N` polls. -/
theorem inProgress_then_succeeded_exact_polls (N : Nat) (responses : Nat → PollOutcome)
    (allowance fuel : Nat) (hN : 0 < N) (hfuel : N ≤ fuel)
    (hIn : ∀ i, i < N - 1 → ∃ d, responses i = .polled .InProgress d)
    (hS : ∃ d, responses (N - 1) = .polled .Succeeded d) :
    PollUntilDone responses allowance none fuel = some (none, N) := by
  unfold PollUntilDone
  have h := pollLoop_inProgress_run responses allowance (N - 1) 0 0 fuel (by omega)
      (fun i h1 h2 => hIn i (by omega)) (by simpa using hS)
  rw [show (0 : Nat) + (N - 1) + 1 = N from by omega] at h
  exact h

/-- Witness for C3: two `InProgress` responses then `Succeeded`; the driver
returns success after exactly 3 polls. -/
theorem inProgress_then_succeeded_exact_polls_witness :
    PollUntilDone threeStepResponses 2 none 3 = some (none, 3) :=
  inProgress_then_succeeded_exact_polls 3 threeStepResponses 2 3 (by decide) (by decide)
    (fun i hi => ⟨10 * timeSecond, by simp [threeStepResponses, show i < 2 from hi]⟩)
    ⟨10 * timeSecond, rfl⟩

/-- C6: with the consecutive-failure allowance configured to 2, three
consecutive transport failures make the spec-modelled `PollUntilDone`
return a `TimeoutExceededError` wrapping the last transport error after
exactly 3 poll attempts; a successful poll resets the consecutive-failure
counter to zero (stated generally, and exercised by a run with two
failure bursts of two that succeeds under the same allowance). -/
theorem consecutive_failures_timeout :
    PollUntilDone threeFailuresResponses 2 none 3 =
      some (some (.TimeoutExceededError "transport failure 2"), 3) ∧
    (∀ (responses : Nat → PollOutcome) (allowance : Nat) (cancelAt : Option Nat)
        (idx f fuel : Nat) (d : Duration),
      responses idx = .polled .InProgress d → cancelObserved cancelAt idx = false →
      pollLoop responses allowance cancelAt idx f (fuel + 1) =
        pollLoop responses allowance cancelAt (idx + 1) 0 fuel) ∧
    PollUntilDone failureRecoveryResponses 2 none 6 = some (none, 6) := by
  refine ⟨by decide, ?_, by decide⟩
  intro responses allowance cancelAt idx f fuel d h hc
  conv_lhs => unfold pollLoop
  simp [hc, h]

/-- Witness for C6's general conjunct: at the successful third poll of the
failure-recovery run, the loop continues with the failure counter reset
from 2 to 0. -/
theorem consecutive_failures_timeout_witness :
    pollLoop failureRecoveryResponses 2 none 2 2 4 =
      pollLoop failureRecoveryResponses 2 none 3 0 3 :=
  (consecutive_failures_timeout).2.1 failureRecoveryResponses 2 none 2 2 3
    (10 * timeSecond) rfl rfl

theorem pollLoop_cancel (responses : Nat → PollOutcome) (allowance : Nat) :
    ∀ (k idx f fuel : Nat), k < fuel →
    (∀ i, idx ≤ i → i < idx + k → ∃ d, responses i = .polled .InProgress d) →
    pollLoop responses allowance (some (idx + k)) idx f fuel =
      some (some .CancellationError, idx + k) := by
  intro k
  induction k with
  | zero =>
      intro idx f fuel hfuel _
      cases fuel with
      | zero => omega
      | succ m =>
          unfold pollLoop
          simp [cancelObserved]
  | succ k ih =>
      intro idx f fuel hfuel hIn
      cases fuel with
      | zero => omega
      | succ m =>
          obtain ⟨d, hd⟩ := hIn idx (Nat.le_refl idx) (by omega)
          unfold pollLoop
          have hnc : cancelObserved (some (idx + (k + 1))) idx = false := by
            simp only [cancelObserved, decide_eq_false_iff_not]
            omega
          simp only [hnc, Bool.false_eq_true, ite_false, hd]
          have harith : idx + (k + 1) = (idx + 1) + k := by omega
          rw [harith]
          exact ih (idx + 1) 0 m (by omega)
            (fun i h1 h2 => hIn i (by omega) (by omega))

/-- C7: if the caller-supplied context is cancelled during the wait before
poll number `c` (all earlier polls still in progress), the spec-modelled
`PollUntilDone` returns a `CancellationError` — an error distinct from
every transport-derived `DriverError` — having issued exactly the `c`
polls that preceded the cancellation and none after it. -/
theorem cancellation_stops_polling (responses : Nat → PollOutcome)
    (allowance c fuel : Nat) (hfuel : c < fuel)
    (hIn : ∀ i, i < c → ∃ d, responses i = .polled .InProgress d) :
    PollUntilDone responses allowance (some c) fuel =
      some (some .CancellationError, c) := by
  unfold PollUntilDone
  have h := pollLoop_cancel responses allowance c 0 0 fuel (by omega)
      (fun i h1 h2 => hIn i (by omega))
  simpa using h

/-- Witness for C7: cancellation observed before the third poll of a run
whose first two polls are `InProgress`. -/
theorem cancellation_stops_polling_witness :
    PollUntilDone threeStepResponses 2 (some 2) 5 =
      some (some .CancellationError, 2) :=
  cancellation_stops_polling threeStepResponses 2 2 5 (by decide)
    (fun i hi => ⟨10 * timeSecond, by simp [threeStepResponses, show i < 2 from hi]⟩)

end HDInsight
